import Mathlib

/-!
Verification development for the client-side format converter
(`src/converter.js`, `src/main.js`).

The JavaScript sources are shallowly embedded below.  Pure string and
routing logic (`convertFile` dispatch, `getFileCategory`, the
`CONVERSION_RULES` table, target checks and error messages) is translated
literally.  External library calls (mammoth, jsPDF, XLSX, heic2any, UTIF,
canvas, FileReader/Image loading) are modelled as fields of an `Env`
record so that theorems quantify over their behaviour; the one external
function whose exact output a claim depends on (`XLSX.utils.sheet_to_csv`)
is modelled from the spec.  The DOM side effect of appending/removing the
temporary rendering `div` is threaded as an explicit `Dom` state.
-/

/-- Model of JavaScript `String.prototype.toLowerCase` (ASCII case folding,
which is all the source relies on: extension comparison). -/
def jsToLower (s : String) : String :=
  ⟨s.data.map Char.toLower⟩

/-- Model of JavaScript `String.prototype.endsWith`. -/
def jsEndsWith (s suffix : String) : Bool :=
  s.data.drop (s.data.length - suffix.data.length) == suffix.data

/-- Model of JavaScript `String.prototype.startsWith`. -/
def jsStartsWith (s pre : String) : Bool :=
  s.data.take pre.data.length == pre.data

/-- An input file: `name`, declared MIME `type`, and raw `content`
(the byte sequence, modelled abstractly as a string). -/
structure SourceFile where
  name : String
  declaredType : String
  content : String
deriving DecidableEq, Repr

/-- A `Blob` as produced by the converter: MIME type plus payload. -/
structure Blob where
  type : String
  data : String
deriving DecidableEq, Repr

/-- One RGBA pixel (channel values 0..255). -/
structure Pixel where
  r : Nat
  g : Nat
  b : Nat
  a : Nat
deriving DecidableEq, Repr

/-- A decoded raster image: dimensions plus pixel buffer. -/
structure Image where
  width : Nat
  height : Nat
  pixels : List Pixel
deriving DecidableEq, Repr

/-- One decoded TIFF IFD (frame), as produced by `UTIF.decode` +
`UTIF.toRGBA8`. -/
structure TiffFrame where
  width : Nat
  height : Nat
  rgba : List Pixel
deriving DecidableEq, Repr

/-- A worksheet: rows of string cells. -/
abbrev Sheet := List (List String)

/-- A parsed workbook as returned by `XLSX.read`: the ordered sheets
(`SheetNames` indexing `Sheets`). -/
structure Workbook where
  sheets : List Sheet
deriving DecidableEq, Repr

/-- The geometry of the single-page PDF built by `convertToPdf`: the jsPDF
constructor receives the orientation and the page format pair, and
addImage receives the placement rectangle. -/
structure PdfDoc where
  orientation : String
  formatW : Nat
  formatH : Nat
  imageX : Nat
  imageY : Nat
  imageW : Nat
  imageH : Nat
deriving DecidableEq, Repr

/-- DOM state relevant to the converter: how many temporary rendering
`div` elements are currently attached to `document.body`. -/
structure Dom where
  attached : Nat
deriving DecidableEq, Repr

/-- Behaviour of the external libraries and browser APIs the converter
calls.  Each field models one effectful/external operation; theorems
quantify over this record. -/
structure Env where
  mammothConvertToHtml : String → Except String String
  docHtmlRender : String → Except String String
  docTextRender : String → String
  sheetToHtml : Sheet → String
  xlsxRead : String → Except String Workbook
  heic2any : String → String → Except String (Blob ⊕ List Blob)
  fileText : String → String
  loadImage : String → Except String Image
  canvasToBlob : Image → String → Option Blob
  utifDecode : String → List TiffFrame
  pdfOutput : PdfDoc → String

/-- Result of one converter call: resolved value (a possibly-null blob)
or rejection (error message), paired with the DOM state afterwards. -/
abbrev ConvResult := Except String (Option Blob) × Dom

/-- Modelled from the spec: `XLSX.utils.sheet_to_csv` cell serialization —
RFC4180-style quoting of a cell that needs escaping (comma, quote or
newline), doubling embedded quotes.  The library itself is not part of
this repository. -/
def csvCell (cell : String) : String :=
  if cell.data.any (fun c => c == ',' || c == '"' || c == '\n') then
    "\"" ++ ⟨(cell.data.map (fun c => if c == '"' then ['"', '"'] else [c])).flatten⟩ ++ "\""
  else cell

/-- Modelled from the spec: `XLSX.utils.sheet_to_csv` — each row's cells
joined by commas, each row terminated by a newline, so the fixture
`[["a","b"],["1","2"]]` serializes to `a,b\n1,2\n`.  The library itself is
not part of this repository. -/
def sheet_to_csv (sheet : Sheet) : String :=
  String.join (sheet.map (fun row => String.intercalate "," (row.map csvCell) ++ "\n"))

/-- Source-over compositing of one pixel onto a solid white destination,
as performed by drawing the image after filling the canvas with solid white. -/
def compositeOverWhite (p : Pixel) : Pixel :=
  { r := (p.r * p.a + 255 * (255 - p.a)) / 255
    g := (p.g * p.a + 255 * (255 - p.a)) / 255
    b := (p.b * p.a + 255 * (255 - p.a)) / 255
    a := p.a + 255 * (255 - p.a) / 255 }

/-- Drawing an image onto a canvas pre-filled with solid white
(fillRect with white, then drawImage). -/
def drawOverWhite (img : Image) : Image :=
  { img with pixels := img.pixels.map compositeOverWhite }

/-- `convertDocx` from `src/converter.js`: mammoth to HTML, then
pass-through for `text/html`, jsPDF `doc.html` rendering (with a
temporary `div` appended to `document.body`, removed only inside the
success callback) for `application/pdf`, otherwise a typed error. -/
def convertDocx (env : Env) (file : SourceFile) (targetType : String) (dom : Dom) : ConvResult :=
  match env.mammothConvertToHtml file.content with
  | .error e => (.error e, dom)
  | .ok html =>
    if targetType == "text/html" then
      (.ok (some { type := "text/html", data := html }), dom)
    else if targetType == "application/pdf" then
      let dom1 : Dom := { attached := dom.attached + 1 }
      match env.docHtmlRender html with
      | .ok pdfData =>
        (.ok (some { type := "application/pdf", data := pdfData }), { attached := dom1.attached - 1 })
      | .error e => (.error e, dom1)
    else
      (.error "Unsupported target for DOCX", dom)

/-- `convertSpreadsheet` from `src/converter.js`: `XLSX.read`, first
worksheet only, `sheet_to_csv` for CSV or plain-text targets,
`sheet_to_html` for HTML/PDF targets (PDF again via `doc.html` with a
temporary `div`), otherwise a typed error.  An empty workbook makes the
worksheet `undefined`, which the library calls then throw on. -/
def convertSpreadsheet (env : Env) (file : SourceFile) (targetType : String) (dom : Dom) : ConvResult :=
  match env.xlsxRead file.content with
  | .error e => (.error e, dom)
  | .ok workbook =>
    let worksheet := workbook.sheets.head?
    if targetType == "text/csv" || targetType == "text/plain" then
      match worksheet with
      | none => (.error "TypeError: worksheet is undefined", dom)
      | some ws => (.ok (some { type := "text/csv", data := sheet_to_csv ws }), dom)
    else if targetType == "application/pdf" || targetType == "text/html" then
      match worksheet with
      | none => (.error "TypeError: worksheet is undefined", dom)
      | some ws =>
        let html := env.sheetToHtml ws
        if targetType == "text/html" then
          (.ok (some { type := "text/html", data := html }), dom)
        else
          let dom1 : Dom := { attached := dom.attached + 1 }
          match env.docHtmlRender html with
          | .ok pdfData =>
            (.ok (some { type := "application/pdf", data := pdfData }), { attached := dom1.attached - 1 })
          | .error e => (.error e, dom1)
    else
      (.error "Unsupported target for Spreadsheet", dom)

/-- `convertTextHTML` from `src/converter.js`: only `application/pdf` is
handled — `.html` files (checked on the original, non-lowercased name) are
rendered via `doc.html` with a temporary `div`, other text via `doc.text`;
every other target throws `Unsupported target for Text/HTML`. -/
def convertTextHTML (env : Env) (file : SourceFile) (targetType : String) (dom : Dom) : ConvResult :=
  let text := env.fileText file.content
  if targetType == "application/pdf" then
    if jsEndsWith file.name ".html" then
      let dom1 : Dom := { attached := dom.attached + 1 }
      match env.docHtmlRender text with
      | .ok pdfData =>
        (.ok (some { type := "application/pdf", data := pdfData }), { attached := dom1.attached - 1 })
      | .error e => (.error e, dom1)
    else
      (.ok (some { type := "application/pdf", data := env.docTextRender text }), dom)
  else
    (.error "Unsupported target for Text/HTML", dom)

/-- `convertHeic` from `src/converter.js`: call `heic2any` with the
requested target type and return its output blob directly (first element
if the library returned an array); errors are logged and rethrown. -/
def convertHeic (env : Env) (file : SourceFile) (targetType : String) (dom : Dom) : ConvResult :=
  match env.heic2any file.content targetType with
  | .error e => (.error e, dom)
  | .ok (.inl blob) => (.ok (some blob), dom)
  | .ok (.inr blobs) => (.ok blobs.head?, dom)

/-- The jsPDF document built by `convertToPdf`: landscape iff the image is
wider than tall, page format `[img.width, img.height]`, image placed at
the origin with its full dimensions. -/
def convertToPdfDoc (img : Image) : PdfDoc :=
  { orientation := if img.width > img.height then "l" else "p"
    formatW := img.width
    formatH := img.height
    imageX := 0
    imageY := 0
    imageW := img.width
    imageH := img.height }

/-- `convertToPdf` from `src/converter.js`: load the image to get its
dimensions, build the single-page PDF described by `convertToPdfDoc`. -/
def convertToPdf (env : Env) (file : SourceFile) (dom : Dom) : ConvResult :=
  match env.loadImage file.content with
  | .error e => (.error e, dom)
  | .ok img =>
    (.ok (some { type := "application/pdf", data := env.pdfOutput (convertToPdfDoc img) }), dom)

/-- `convertTiff` from `src/converter.js`: `UTIF.decode`; zero IFDs throw
`Invalid TIFF file`; the first frame becomes the canvas pixel buffer; for
JPEG/BMP targets the buffer is redrawn over a white-filled canvas; finally
`canvas.toBlob(resolve, targetType, 0.9)` — note the promise resolves with
whatever `toBlob` passes, including `null`, with no check. -/
def convertTiff (env : Env) (file : SourceFile) (targetType : String) (dom : Dom) : ConvResult :=
  match env.utifDecode file.content with
  | [] => (.error "Invalid TIFF file", dom)
  | ifd0 :: _ =>
    let img : Image := { width := ifd0.width, height := ifd0.height, pixels := ifd0.rgba }
    if targetType == "image/jpeg" || targetType == "image/bmp" then
      (.ok (env.canvasToBlob (drawOverWhite img) targetType), dom)
    else
      (.ok (env.canvasToBlob img targetType), dom)

/-- `convertImageToImage` from `src/converter.js`: load the image, fill
the canvas with white first for JPEG/BMP targets, draw, then
`canvas.toBlob` — here a `null` blob is checked and rejected with
`Canvas toBlob failed`. -/
def convertImageToImage (env : Env) (file : SourceFile) (targetType : String) (dom : Dom) : ConvResult :=
  match env.loadImage file.content with
  | .error e => (.error e, dom)
  | .ok img =>
    let drawn := if targetType == "image/jpeg" || targetType == "image/bmp" then drawOverWhite img else img
    match env.canvasToBlob drawn targetType with
    | some blob => (.ok (some blob), dom)
    | none => (.error "Canvas toBlob failed", dom)

/-- `convertFile` from `src/converter.js`: the Router.  Dispatch is purely
on the lowercased filename's extension, the declared type (TIFF only) and
the target MIME type, in source order; the Compatibility Table is never
consulted. -/
def convertFile (env : Env) (sourceFile : SourceFile) (targetMimeType : String) (dom : Dom) : ConvResult :=
  let name := jsToLower sourceFile.name
  if jsEndsWith name ".docx" then
    convertDocx env sourceFile targetMimeType dom
  else if jsEndsWith name ".xlsx" || jsEndsWith name ".xls" || jsEndsWith name ".csv" || jsEndsWith name ".ods" then
    convertSpreadsheet env sourceFile targetMimeType dom
  else if jsEndsWith name ".txt" || jsEndsWith name ".html" || jsEndsWith name ".rtf" then
    convertTextHTML env sourceFile targetMimeType dom
  else if jsEndsWith name ".heic" || jsEndsWith name ".heif" then
    convertHeic env sourceFile targetMimeType dom
  else if targetMimeType == "application/pdf" then
    convertToPdf env sourceFile dom
  else if sourceFile.declaredType == "image/tiff" || jsEndsWith name ".tiff" || jsEndsWith name ".tif" then
    convertTiff env sourceFile targetMimeType dom
  else
    convertImageToImage env sourceFile targetMimeType dom

/-- The file categories of `src/main.js` (`getFileCategory`). -/
inductive Category where
  | image
  | document
  | spreadsheet
  | text
  | pdf
deriving DecidableEq, Repr

/-- `getFileCategory` from `src/main.js`: classify by declared MIME type
and lowercased extension, first match wins. -/
def getFileCategory (file : SourceFile) : Option Category :=
  let name := jsToLower file.name
  let type := file.declaredType
  if jsStartsWith type "image/" || jsEndsWith name ".heic" || jsEndsWith name ".heif" || jsEndsWith name ".tiff" || jsEndsWith name ".tif" then
    some .image
  else if jsEndsWith name ".docx" || jsEndsWith name ".doc" then
    some .document
  else if jsEndsWith name ".xlsx" || jsEndsWith name ".xls" || jsEndsWith name ".csv" || jsEndsWith name ".ods" then
    some .spreadsheet
  else if jsStartsWith type "text/" || jsEndsWith name ".txt" || jsEndsWith name ".html" || jsEndsWith name ".rtf" then
    some .text
  else if type == "application/pdf" || jsEndsWith name ".pdf" then
    some .pdf
  else
    none

/-- `CONVERSION_RULES` from `src/main.js`: the Compatibility Table,
category to ordered `(targetMimeType, label)` list. -/
def CONVERSION_RULES : Category → List (String × String)
  | .image =>
      [("image/jpeg", "JPEG"), ("image/png", "PNG"), ("image/webp", "WebP"),
       ("image/bmp", "BMP"), ("image/gif", "GIF"), ("application/pdf", "PDF")]
  | .document => [("application/pdf", "PDF"), ("text/html", "HTML")]
  | .spreadsheet => [("application/pdf", "PDF"), ("text/csv", "CSV"), ("text/html", "HTML")]
  | .text =>
      [("application/pdf", "PDF"),
       ("application/vnd.openxmlformats-officedocument.wordprocessingml.document", "DOCX (Basic)")]
  | .pdf => [("text/plain", "Text (TXT)")]

/-- `getCompatibleFormats` from `src/main.js`: table lookup, empty for an
unclassified file. -/
def getCompatibleFormats (file : SourceFile) : List (String × String) :=
  match getFileCategory file with
  | some c => CONVERSION_RULES c
  | none => []

/-- Outcome of one job as recorded by `convertAllFiles` in `src/main.js`:
terminal status plus the stored `resultBlob` (`none` models JavaScript
`null`). -/
structure JobOutcome where
  status : String
  resultBlob : Option Blob
deriving DecidableEq, Repr

/-- One job of `convertAllFiles` from `src/main.js`: `await convertFile`;
on resolution store the blob (whatever it is) and set status `done`; on
rejection set status `error` with no blob. -/
def convertAllFilesJob (env : Env) (file : SourceFile) (target : String) (dom : Dom) : JobOutcome × Dom :=
  match convertFile env file target dom with
  | (.ok b, d) => ({ status := "done", resultBlob := b }, d)
  | (.error _, d) => ({ status := "error", resultBlob := none }, d)

/-- True iff a converter call rejected. -/
def isError (r : Except String (Option Blob)) : Bool :=
  match r with
  | .error _ => true
  | .ok _ => false

/-- Membership of an extension (by case-insensitive suffix) in a list, the
reading of the extension tests in the spec classifier rules. -/
def hasExtIn (name : String) (exts : List String) : Bool :=
  exts.any (fun e => jsEndsWith (jsToLower name) e)

/-- Modelled from the spec: the classifier decision rule for one category,
as worded in the Format Classifier contract. -/
def specRuleHolds (c : Category) (filename declaredMime : String) : Bool :=
  match c with
  | .image => jsStartsWith declaredMime "image/" || hasExtIn filename [".heic", ".heif", ".tiff", ".tif"]
  | .document => hasExtIn filename [".docx", ".doc"]
  | .spreadsheet => hasExtIn filename [".xlsx", ".xls", ".csv", ".ods"]
  | .text => jsStartsWith declaredMime "text/" || hasExtIn filename [".txt", ".html", ".rtf"]
  | .pdf => declaredMime == "application/pdf" || jsEndsWith (jsToLower filename) ".pdf"

/-- Modelled from the spec: the classifier as the spec words it — the five
category rules applied in fixed order with first match winning. -/
def classifySpec (filename declaredMime : String) : Option Category :=
  [Category.image, .document, .spreadsheet, .text, .pdf].find?
    (fun c => specRuleHolds c filename declaredMime)

/-- The first three dispatch conditions of `convertFile` all fail: the
lowercased name has no DOCX, spreadsheet or text extension. -/
def noMarkupExt (file : SourceFile) : Bool :=
  let name := jsToLower file.name
  !(jsEndsWith name ".docx") &&
  !(jsEndsWith name ".xlsx" || jsEndsWith name ".xls" || jsEndsWith name ".csv" || jsEndsWith name ".ods") &&
  !(jsEndsWith name ".txt" || jsEndsWith name ".html" || jsEndsWith name ".rtf")

/-- The spreadsheet fixture of the spec: first worksheet rows. -/
def fixtureSheet : Sheet := [["a", "b"], ["1", "2"]]

/-- A concrete, well-behaved library environment: every external call
succeeds with a small canonical output. -/
def env1 : Env where
  mammothConvertToHtml := fun _ => .ok "<p>doc</p>"
  docHtmlRender := fun _ => .ok "%PDF-html"
  docTextRender := fun _ => "%PDF-text"
  sheetToHtml := fun _ => "<table></table>"
  xlsxRead := fun _ => .ok { sheets := [fixtureSheet] }
  heic2any := fun _ t => .ok (.inl { type := t, data := "heicdata" })
  fileText := fun s => s
  loadImage := fun _ => .ok { width := 2, height := 3, pixels := [{ r := 0, g := 0, b := 0, a := 0 }] }
  canvasToBlob := fun _ t => some { type := t, data := "img" }
  utifDecode := fun _ => []
  pdfOutput := fun _ => "%PDF-img"

/-- Environment in which the jsPDF markup rendering step fails. -/
def envRenderFail : Env := { env1 with docHtmlRender := fun _ => .error "render failed" }

/-- Environment in which the TIFF decodes to one frame but the canvas
encoder hands the callback a null blob. -/
def envNullBlob : Env := { env1 with
  canvasToBlob := fun _ _ => none
  utifDecode := fun _ => [{ width := 1, height := 1, rgba := [{ r := 0, g := 0, b := 0, a := 255 }] }] }

/-- Environment in which the HEIC decoder emits a PNG blob whatever target
type it is asked for (the decoder only supports JPEG, PNG and GIF). -/
def envHeicPng : Env := { env1 with heic2any := fun _ _ => .ok (.inl { type := "image/png", data := "png" }) }

/-- Environment whose TIFF decoder yields one frame holding a single fully
transparent pixel. -/
def envTrans : Env := { env1 with
  utifDecode := fun _ => [{ width := 1, height := 1, rgba := [{ r := 10, g := 20, b := 30, a := 0 }] }] }

/-- Environment whose workbook has a second sheet beyond the fixture. -/
def envMulti : Env := { env1 with xlsxRead := fun _ => .ok { sheets := [fixtureSheet, [["x"]]] } }

theorem find?_cons_eq_ite {α : Type u} (p : α → Bool) (x : α) (xs : List α) :
    List.find? p (x :: xs) = if p x then some x else List.find? p xs := by
  cases h : p x <;> simp [List.find?, h]

/-- C1 (counterexample): a (category, target) pair absent from the
Compatibility Table does not fail — `data.csv` is classified spreadsheet,
`text/plain` is not a listed spreadsheet target, yet `convertFile`
succeeds and returns CSV bytes, refuting the claim that every off-table
pair is rejected with no output. -/
theorem c1_off_table_pair_succeeds :
    getFileCategory ⟨"data.csv", "", "c"⟩ = some Category.spreadsheet
    ∧ ((CONVERSION_RULES Category.spreadsheet).map Prod.fst).contains "text/plain" = false
    ∧ convertFile env1 ⟨"data.csv", "", "c"⟩ "text/plain" ⟨0⟩
        = (.ok (some { type := "text/csv", data := "a,b\n1,2\n" }), ⟨0⟩) :=
  ⟨by decide, by decide, rfl⟩

/-- C1 (amended): the Router never consults the Compatibility Table.
What holds instead: within the DOCX, spreadsheet and text branches a
target the branch does not handle fails with a typed error and no output
bytes (DOCX: anything but HTML/PDF; spreadsheet: anything but
CSV/plain-text/HTML/PDF; text: anything but PDF), but an off-table pair a
branch does handle is not rejected — a spreadsheet source with target
`text/plain` succeeds and returns CSV bytes. -/
theorem c1_branch_unsupported_target_errors :
    (∀ (env : Env) (file : SourceFile) (t : String) (dom : Dom),
      jsEndsWith (jsToLower file.name) ".docx" = true →
      (t == "text/html") = false → (t == "application/pdf") = false →
      isError (convertFile env file t dom).1 = true ∧ (convertFile env file t dom).2 = dom)
    ∧ (∀ (env : Env) (file : SourceFile) (t : String) (dom : Dom),
      jsEndsWith (jsToLower file.name) ".docx" = false →
      (jsEndsWith (jsToLower file.name) ".xlsx" || jsEndsWith (jsToLower file.name) ".xls" ||
        jsEndsWith (jsToLower file.name) ".csv" || jsEndsWith (jsToLower file.name) ".ods") = true →
      (t == "text/csv" || t == "text/plain") = false →
      (t == "application/pdf" || t == "text/html") = false →
      isError (convertFile env file t dom).1 = true ∧ (convertFile env file t dom).2 = dom)
    ∧ (∀ (env : Env) (file : SourceFile) (t : String) (dom : Dom),
      jsEndsWith (jsToLower file.name) ".docx" = false →
      (jsEndsWith (jsToLower file.name) ".xlsx" || jsEndsWith (jsToLower file.name) ".xls" ||
        jsEndsWith (jsToLower file.name) ".csv" || jsEndsWith (jsToLower file.name) ".ods") = false →
      (jsEndsWith (jsToLower file.name) ".txt" || jsEndsWith (jsToLower file.name) ".html" ||
        jsEndsWith (jsToLower file.name) ".rtf") = true →
      (t == "application/pdf") = false →
      convertFile env file t dom = (.error "Unsupported target for Text/HTML", dom))
    ∧ (getFileCategory ⟨"data.csv", "", "c"⟩ = some Category.spreadsheet
      ∧ ((CONVERSION_RULES Category.spreadsheet).map Prod.fst).contains "text/plain" = false
      ∧ convertFile env1 ⟨"data.csv", "", "c"⟩ "text/plain" ⟨0⟩
          = (.ok (some { type := "text/csv", data := "a,b\n1,2\n" }), ⟨0⟩)) := by
  refine ⟨?_, ?_, ?_, by decide, by decide, rfl⟩
  · intro env file t dom h1 h2 h3
    cases hm : env.mammothConvertToHtml file.content <;>
      simp [convertFile, convertDocx, h1, h2, h3, hm, isError]
  · intro env file t dom h1 h2 h3 h4
    cases hx : env.xlsxRead file.content <;>
      simp [convertFile, convertSpreadsheet, h1, h2, h3, h4, hx, isError]
  · intro env file t dom h1 h2 h3 h4
    simp [convertFile, convertTextHTML, h1, h2, h3, h4]

/-- C1 (witness): the three rejection statements applied at concrete
inputs — DOCX source with CSV target, spreadsheet source with PNG target,
text source with HTML target. -/
theorem c1_branch_unsupported_target_errors_witness :
    (isError (convertFile env1 ⟨"report.docx", "", "d"⟩ "text/csv" ⟨0⟩).1 = true
      ∧ (convertFile env1 ⟨"report.docx", "", "d"⟩ "text/csv" ⟨0⟩).2 = ⟨0⟩)
    ∧ (isError (convertFile env1 ⟨"table.xlsx", "", "x"⟩ "image/png" ⟨0⟩).1 = true
      ∧ (convertFile env1 ⟨"table.xlsx", "", "x"⟩ "image/png" ⟨0⟩).2 = ⟨0⟩)
    ∧ convertFile env1 ⟨"notes.txt", "text/plain", "h"⟩ "text/html" ⟨0⟩
        = (.error "Unsupported target for Text/HTML", ⟨0⟩) :=
  ⟨c1_branch_unsupported_target_errors.1 env1 ⟨"report.docx", "", "d"⟩ "text/csv" ⟨0⟩
      (by decide) (by decide) (by decide),
   c1_branch_unsupported_target_errors.2.1 env1 ⟨"table.xlsx", "", "x"⟩ "image/png" ⟨0⟩
      (by decide) (by decide) (by decide) (by decide),
   c1_branch_unsupported_target_errors.2.2.1 env1 ⟨"notes.txt", "text/plain", "h"⟩ "text/html" ⟨0⟩
      (by decide) (by decide) (by decide) (by decide)⟩

/-- C2: the Compatibility Table lists DOCX as a target for the text
category, yet `convertFile` on a `.txt` file with the DOCX target always
throws `Unsupported target for Text/HTML`, for every library environment —
the listed pair text → DOCX can never succeed. -/
theorem c2_text_to_docx_listed_but_fails :
    getFileCategory ⟨"notes.txt", "text/plain", "hello"⟩ = some Category.text
    ∧ ((CONVERSION_RULES Category.text).map Prod.fst).contains
        "application/vnd.openxmlformats-officedocument.wordprocessingml.document" = true
    ∧ (∀ (env : Env) (dom : Dom),
        convertFile env ⟨"notes.txt", "text/plain", "hello"⟩
          "application/vnd.openxmlformats-officedocument.wordprocessingml.document" dom
          = (.error "Unsupported target for Text/HTML", dom)) :=
  ⟨by decide, by decide, fun _ _ => rfl⟩

/-- C3: when the canvas encoder fails on the TIFF path, `convertTiff`
resolves with a null blob instead of rejecting, and `convertAllFiles`
marks the job `done` with `resultBlob` null — a job reaches `done` with no
output bytes, violating the claimed invariant. -/
theorem c3_tiff_null_blob_job_done :
    convertFile envNullBlob ⟨"scan.tiff", "image/tiff", "t"⟩ "image/bmp" ⟨0⟩ = (.ok none, ⟨0⟩)
    ∧ isError (convertFile envNullBlob ⟨"scan.tiff", "image/tiff", "t"⟩ "image/bmp" ⟨0⟩).1 = false
    ∧ convertAllFilesJob envNullBlob ⟨"scan.tiff", "image/tiff", "t"⟩ "image/bmp" ⟨0⟩
        = ({ status := "done", resultBlob := none }, ⟨0⟩) :=
  ⟨rfl, rfl, rfl⟩

/-- C4 (counterexample): with a HEIC decoder that emits PNG when asked for
WebP (the decoder only supports JPEG/PNG/GIF), `convertFile` on a `.heic`
file with target `image/webp` returns the PNG blob unchanged — no second
re-encode step brings the bytes into the requested format. -/
theorem c4_heic_output_format_mismatch :
    convertFile envHeicPng ⟨"photo.heic", "image/heic", "h"⟩ "image/webp" ⟨0⟩
      = (.ok (some { type := "image/png", data := "png" }), ⟨0⟩)
    ∧ "image/png" ≠ "image/webp" :=
  ⟨rfl, by decide⟩

/-- C4 (amended): for every `.heic`/`.heif` file, `convertFile` passes the
requested target type to the HEIC decoder and returns the decoder output
directly (first element if it is an array) — there is no re-encode step,
so the result format is whatever the decoder emitted. -/
theorem c4_heic_passthrough : ∀ (env : Env) (file : SourceFile) (t : String) (dom : Dom),
    noMarkupExt file = true →
    (jsEndsWith (jsToLower file.name) ".heic" || jsEndsWith (jsToLower file.name) ".heif") = true →
    convertFile env file t dom =
      (match env.heic2any file.content t with
        | .error e => (.error e, dom)
        | .ok (.inl b) => (.ok (some b), dom)
        | .ok (.inr bs) => (.ok bs.head?, dom)) := by
  intro env file t dom hn hh
  simp [noMarkupExt] at hn
  simp [convertFile, hn, hh, convertHeic]

/-- C4 (witness): the passthrough applied to a concrete `.heic` file with
a JPEG target under the well-behaved environment. -/
theorem c4_heic_passthrough_witness :
    convertFile env1 ⟨"photo.heic", "", "h"⟩ "image/jpeg" ⟨0⟩
      = (.ok (some { type := "image/jpeg", data := "heicdata" }), ⟨0⟩) := by
  rw [c4_heic_passthrough env1 ⟨"photo.heic", "", "h"⟩ "image/jpeg" ⟨0⟩ (by decide) (by decide)]
  rfl

/-- C5: flattening over white is fully opacifying — every pixel of a
composited buffer has alpha 255 — and for JPEG/BMP targets both the TIFF
path and the generic raster path hand the encoder exactly the
white-flattened buffer. -/
theorem c5_flatten_white_full_alpha :
    (∀ (img : Image), (∀ p ∈ img.pixels, p.a ≤ 255) →
      ∀ q ∈ (drawOverWhite img).pixels, q.a = 255)
    ∧ (∀ (env : Env) (file : SourceFile) (t : String) (dom : Dom) (frame : TiffFrame) (rest : List TiffFrame),
        env.utifDecode file.content = frame :: rest →
        (t == "image/jpeg" || t == "image/bmp") = true →
        convertTiff env file t dom =
          (.ok (env.canvasToBlob
            (drawOverWhite { width := frame.width, height := frame.height, pixels := frame.rgba }) t), dom))
    ∧ (∀ (env : Env) (file : SourceFile) (t : String) (dom : Dom) (img : Image),
        env.loadImage file.content = .ok img →
        (t == "image/jpeg" || t == "image/bmp") = true →
        convertImageToImage env file t dom =
          (match env.canvasToBlob (drawOverWhite img) t with
            | some b => (.ok (some b), dom)
            | none => (.error "Canvas toBlob failed", dom))) := by
  refine ⟨?_, ?_, ?_⟩
  · intro img h q hq
    obtain ⟨p, hp, rfl⟩ := List.mem_map.1 hq
    have hle : p.a ≤ 255 := h p hp
    show p.a + 255 * (255 - p.a) / 255 = 255
    rw [Nat.mul_div_cancel_left _ (by norm_num : 0 < 255)]
    omega
  · intro env file t dom frame rest hu ht
    simp [convertTiff, hu, ht]
  · intro env file t dom img hl ht
    simp [convertImageToImage, hl, ht]

/-- C5 (witness): a fully transparent pixel composites to alpha 255, and
on a concrete one-pixel TIFF with JPEG target the encoder receives the
flattened buffer; likewise on the generic raster path. -/
theorem c5_flatten_white_full_alpha_witness :
    (compositeOverWhite { r := 10, g := 20, b := 30, a := 0 }).a = 255
    ∧ convertTiff envTrans ⟨"scan.tiff", "image/tiff", "t"⟩ "image/jpeg" ⟨0⟩
        = (.ok (envTrans.canvasToBlob
            (drawOverWhite { width := 1, height := 1, pixels := [{ r := 10, g := 20, b := 30, a := 0 }] })
            "image/jpeg"), ⟨0⟩)
    ∧ convertImageToImage env1 ⟨"photo.png", "image/png", "p"⟩ "image/jpeg" ⟨0⟩
        = (match env1.canvasToBlob
            (drawOverWhite { width := 2, height := 3, pixels := [{ r := 0, g := 0, b := 0, a := 0 }] })
            "image/jpeg" with
           | some b => (.ok (some b), ⟨0⟩)
           | none => (.error "Canvas toBlob failed", ⟨0⟩)) :=
  ⟨c5_flatten_white_full_alpha.1 { width := 1, height := 1, pixels := [{ r := 10, g := 20, b := 30, a := 0 }] }
      (by decide) _ (by simp [drawOverWhite]),
   c5_flatten_white_full_alpha.2.1 envTrans ⟨"scan.tiff", "image/tiff", "t"⟩ "image/jpeg" ⟨0⟩
      { width := 1, height := 1, rgba := [{ r := 10, g := 20, b := 30, a := 0 }] } [] rfl (by decide),
   c5_flatten_white_full_alpha.2.2 env1 ⟨"photo.png", "image/png", "p"⟩ "image/jpeg" ⟨0⟩
      { width := 2, height := 3, pixels := [{ r := 0, g := 0, b := 0, a := 0 }] } rfl (by decide)⟩

/-- C6: for a generic image source with PDF target, the page is sized
exactly to the image pixel dimensions, portrait when width ≤ height and
landscape otherwise, with the image placed at the origin filling the page;
and `convertFile` routes such a file to exactly this document. -/
theorem c6_image_pdf_page_geometry :
    (∀ (img : Image),
      (convertToPdfDoc img).orientation = (if img.width ≤ img.height then "p" else "l")
      ∧ (convertToPdfDoc img).formatW = img.width
      ∧ (convertToPdfDoc img).formatH = img.height
      ∧ (convertToPdfDoc img).imageX = 0
      ∧ (convertToPdfDoc img).imageY = 0
      ∧ (convertToPdfDoc img).imageW = (convertToPdfDoc img).formatW
      ∧ (convertToPdfDoc img).imageH = (convertToPdfDoc img).formatH)
    ∧ (∀ (env : Env) (file : SourceFile) (dom : Dom) (img : Image),
        noMarkupExt file = true →
        (jsEndsWith (jsToLower file.name) ".heic" || jsEndsWith (jsToLower file.name) ".heif") = false →
        env.loadImage file.content = .ok img →
        convertFile env file "application/pdf" dom =
          (.ok (some { type := "application/pdf", data := env.pdfOutput (convertToPdfDoc img) }), dom)) := by
  constructor
  · intro img
    refine ⟨?_, rfl, rfl, rfl, rfl, rfl, rfl⟩
    rcases Nat.lt_or_ge img.height img.width with h | h
    · simp [convertToPdfDoc, h, Nat.not_le.mpr h]
    · simp [convertToPdfDoc, Nat.not_lt.mpr h, h]
  · intro env file dom img hn hh hl
    simp [noMarkupExt] at hn
    simp [convertFile, hn, hh, convertToPdf, hl]

/-- C6 (witness): the routing statement at a concrete PNG file whose image
loads with width 2 and height 3. -/
theorem c6_image_pdf_page_geometry_witness :
    convertFile env1 ⟨"photo.png", "image/png", "p"⟩ "application/pdf" ⟨0⟩
      = (.ok (some ⟨"application/pdf",
          env1.pdfOutput
            (convertToPdfDoc { width := 2, height := 3, pixels := [{ r := 0, g := 0, b := 0, a := 0 }] })⟩), ⟨0⟩) :=
  c6_image_pdf_page_geometry.2 env1 ⟨"photo.png", "image/png", "p"⟩ ⟨0⟩
    { width := 2, height := 3, pixels := [{ r := 0, g := 0, b := 0, a := 0 }] }
    (by decide) (by decide) rfl

/-- C7: the classifier is a pure function of filename and declared MIME
type equal to the spec rule list applied in order with first match
winning, and the six concrete classifications of the spec hold. -/
theorem c7_classifier_order_and_cases :
    (∀ (file : SourceFile), getFileCategory file = classifySpec file.name file.declaredType)
    ∧ getFileCategory ⟨"photo.HEIC", "", ""⟩ = some Category.image
    ∧ getFileCategory ⟨"report.docx", "application/octet-stream", ""⟩ = some Category.document
    ∧ getFileCategory ⟨"data.csv", "", ""⟩ = some Category.spreadsheet
    ∧ getFileCategory ⟨"notes.txt", "", ""⟩ = some Category.text
    ∧ getFileCategory ⟨"scan.pdf", "", ""⟩ = some Category.pdf
    ∧ getFileCategory ⟨"archive.zip", "application/zip", ""⟩ = none := by
  refine ⟨?_, by decide, by decide, by decide, by decide, by decide, by decide⟩
  intro file
  simp only [getFileCategory, classifySpec, find?_cons_eq_ite, List.find?_nil,
    specRuleHolds, hasExtIn, List.any, Bool.or_false, Bool.or_assoc]

/-- C8: the spreadsheet fixture with rows a,b and 1,2 converts to CSV
bytes reading exactly the two comma-joined newline-terminated rows, and
the conversion depends only on the first worksheet — workbooks agreeing on
their first sheet convert identically for every target. -/
theorem c8_spreadsheet_csv_first_sheet :
    convertFile env1 ⟨"table.xlsx", "", "x"⟩ "text/csv" ⟨0⟩
      = (.ok (some { type := "text/csv", data := "a,b\n1,2\n" }), ⟨0⟩)
    ∧ (∀ (envA envB : Env) (file : SourceFile) (t : String) (dom : Dom)
        (s : Sheet) (restA restB : List Sheet),
        envA.xlsxRead file.content = .ok { sheets := s :: restA } →
        envB.xlsxRead file.content = .ok { sheets := s :: restB } →
        envA.sheetToHtml = envB.sheetToHtml →
        envA.docHtmlRender = envB.docHtmlRender →
        convertSpreadsheet envA file t dom = convertSpreadsheet envB file t dom) := by
  refine ⟨rfl, ?_⟩
  intro envA envB file t dom s restA restB hA hB hHtml hRender
  simp [convertSpreadsheet, hA, hB, hHtml, hRender]

/-- C8 (witness): the first-sheet-only statement applied to the fixture
workbook and the same workbook extended with an extra sheet. -/
theorem c8_spreadsheet_csv_first_sheet_witness :
    convertSpreadsheet env1 ⟨"table.xlsx", "", "x"⟩ "text/csv" ⟨0⟩
      = convertSpreadsheet envMulti ⟨"table.xlsx", "", "x"⟩ "text/csv" ⟨0⟩ :=
  c8_spreadsheet_csv_first_sheet.2 env1 envMulti ⟨"table.xlsx", "", "x"⟩ "text/csv" ⟨0⟩
    fixtureSheet [] [[["x"]]] rfl rfl rfl rfl

/-- C9: when the jsPDF rendering step fails on the DOCX → PDF path, the
temporary div appended to `document.body` is never removed (removal only
happens in the success callback): the failed conversion ends with one more
attached element than it started with, while the success path removes it. -/
theorem c9_docx_pdf_failure_leaks_tempdiv :
    convertFile envRenderFail ⟨"report.docx", "", "d"⟩ "application/pdf" ⟨0⟩
      = (.error "render failed", { attached := 1 })
    ∧ convertFile env1 ⟨"report.docx", "", "d"⟩ "application/pdf" ⟨0⟩
      = (.ok (some { type := "application/pdf", data := "%PDF-html" }), { attached := 0 }) :=
  ⟨rfl, rfl⟩

/-- C10: for every spreadsheet-routed file, converting with target
`text/plain` is the very same computation as converting with `text/csv` —
identical result bytes — and on a concrete fixture it succeeds with the
first worksheet serialized as CSV. -/
theorem c10_spreadsheet_plain_eq_csv :
    (∀ (env : Env) (file : SourceFile) (dom : Dom),
      jsEndsWith (jsToLower file.name) ".docx" = false →
      (jsEndsWith (jsToLower file.name) ".xlsx" || jsEndsWith (jsToLower file.name) ".xls" ||
        jsEndsWith (jsToLower file.name) ".csv" || jsEndsWith (jsToLower file.name) ".ods") = true →
      convertFile env file "text/plain" dom = convertFile env file "text/csv" dom)
    ∧ convertFile env1 ⟨"data.xlsx", "", "x"⟩ "text/plain" ⟨0⟩
        = (.ok (some { type := "text/csv", data := "a,b\n1,2\n" }), ⟨0⟩) := by
  constructor
  · intro env file dom h1 h2
    simp [convertFile, h1, h2, convertSpreadsheet]
  · rfl

/-- C10 (witness): the equality applied to a concrete `.xls` file under
the well-behaved environment. -/
theorem c10_spreadsheet_plain_eq_csv_witness :
    convertFile env1 ⟨"table.xls", "", "x"⟩ "text/plain" ⟨0⟩
      = convertFile env1 ⟨"table.xls", "", "x"⟩ "text/csv" ⟨0⟩ :=
  c10_spreadsheet_plain_eq_csv.1 env1 ⟨"table.xls", "", "x"⟩ ⟨0⟩ (by decide) (by decide)
